import Mathlib

/-
  Verification development for the video comparison application
  (src/main.py): a shallow embedding of the OverlayVideoLabel divider
  widget and the VideoCompareApp playback controller, with theorems
  settling the frozen claims about the program.

  Modelling conventions:
  - Machine floats of the source are modelled as exact rationals.  All
    the quantities involved (stream positions in ms, durations, fps,
    division ratios) stay far from the binade boundaries at which
    double rounding could change an int() truncation, so the exact
    model agrees with the float computation on every input used below.
  - The external decoder (cv2.VideoCapture) is modelled as a record
    of the properties the program reads, with read() succeeding
    exactly while the position is before the end of the stream and
    CAP_PROP_POS_MSEC reported as frame index over frame rate.
  - Frames are abstracted to their pixel dimensions; every claim under
    verification depends only on widths and heights.
  - GUI dialogs are modelled as a list of dialog tags appended to the
    state; Qt widget plumbing (labels, layouts) outside the claims is
    dropped.
  - The source mutually recurses between stop_videos and
    display_initial_frames (through the width-lt-2 error branch, the
    recursion is unbounded); the model indexes the pair by fuel.
-/

namespace VideoCompare

/-- One decoded bitmap, abstracted to its pixel dimensions. -/
structure Frame where
  height : Nat
  width : Nat
deriving DecidableEq

/-- Model of one cv2.VideoCapture stream handle: whether it opened, the
metadata properties the program queries, and the current frame position. -/
structure Cap where
  isOpened : Bool
  fps : ℚ
  frameCount : Nat
  frameWidth : Nat
  frameHeight : Nat
  posFrames : Nat
deriving DecidableEq

/-- cap.read(): succeeds while the position is before the end of an opened
stream, returning the decoded frame and advancing the position by one. -/
def Cap.read (c : Cap) : Bool × Option Frame × Cap :=
  if c.isOpened = true ∧ c.posFrames < c.frameCount then
    (true, some { height := c.frameHeight, width := c.frameWidth },
      { c with posFrames := c.posFrames + 1 })
  else
    (false, none, c)

/-- cap.get(cv2.CAP_PROP_POS_MSEC): position in milliseconds, frame index
over frame rate. -/
def Cap.posMsec (c : Cap) : ℚ :=
  if 0 < c.fps then (c.posFrames : ℚ) / c.fps * 1000 else 0

/-- Python int() applied to a (here exactly modelled) float: truncation
toward zero. -/
def pyint (q : ℚ) : ℤ :=
  if 0 ≤ q then ⌊q⌋ else ⌈q⌉

/-- The divider update of OverlayVideoLabel.mouseMoveEvent while dragging
(src lines 296-365): recompute the image area from the two scaled image
widths, truncate the pointer x, clamp it to the 1..99 percent band of the
image area, and derive the stored division ratio.  The literals 0.01 and
0.99 are modelled exactly as 1/100 and 99/100. -/
def mouseMoveEvent (widget_width img1_width img2_width : Nat) (px : ℚ) : ℚ :=
  let image_area_width : ℤ := ((min img1_width img2_width : Nat) : ℤ)
  let image_area_x : ℤ := Int.fdiv ((widget_width : ℤ) - image_area_width) 2
  let new_division_x : ℤ := pyint px
  let lo : ℤ := pyint ((1 / 100 : ℚ) * (image_area_width : ℚ)) + image_area_x
  let hi : ℤ := pyint ((99 / 100 : ℚ) * (image_area_width : ℚ)) + image_area_x
  let clamped : ℤ := max lo (min new_division_x hi)
  ((clamped - image_area_x : ℤ) : ℚ) / (image_area_width : ℚ)

/-- The two view layouts of the stacked layout. -/
inductive View
  | sideBySide
  | overlay
deriving DecidableEq

/-- Tags for the modal dialog boxes the program can show; the model keeps
the list of dialogs shown so far in order. -/
inductive Dialog
  | warnFirstNotSelected
  | errOpenFirst
  | errOpenSecond
  | warnLoadFirst
  | warnLoadSecond
  | errInvalidFps
  | errFrameTooNarrow
  | warnOverlayNeedsVideo
  | errPlaybackUnexpected
deriving DecidableEq

/-- The uncaught Python exceptions the model can surface. -/
inductive PyErr
  | noneIntCompare
deriving DecidableEq

/-- The mutable state of VideoCompareApp that the claims are about:
the two captures, the QTimer (active flag and last computed interval,
None until the first play), the pause and mode flags, the per-stream
metadata read at load, the seek slider, button enablement, the frames
currently pushed to the overlay widget or the two side-by-side labels,
the dialogs shown, and the captures released so far. -/
structure AppState where
  cap1 : Option Cap
  cap2 : Option Cap
  timerActive : Bool
  timer_interval : Option ℤ
  is_paused : Bool
  is_overlay : Bool
  single_video_mode : Bool
  fps1 : ℚ
  fps2 : ℚ
  frame_count1 : Nat
  frame_count2 : Nat
  duration1 : ℚ
  duration2 : ℚ
  duration : ℚ
  sliderMax : ℤ
  sliderValue : ℤ
  sliderEnabled : Bool
  modeToggleChecked : Bool
  modeToggleEnabled : Bool
  playEnabled : Bool
  pauseEnabled : Bool
  stopEnabled : Bool
  view : View
  overlayFrames : Option (Frame × Frame)
  label1 : Option Frame
  label2 : Option Frame
  dialogs : List Dialog
  released : List Cap
deriving DecidableEq

/-- Append a shown dialog to the state. -/
def pushDialog (s : AppState) (d : Dialog) : AppState :=
  { s with dialogs := s.dialogs ++ [d] }

/-- seek_slider.setValue: Qt clamps the value to the slider range (the
minimum is 0 both by default and after load). -/
def setSlider (s : AppState) (v : ℤ) : AppState :=
  { s with sliderValue := max 0 (min v s.sliderMax) }

/-- Lines 859-862 of display_initial_frames: reset the frame position of
cap1, and of cap2 when two videos are loaded, to the start. -/
def resetPositions (s : AppState) : AppState :=
  let s1 := match s.cap1 with
            | some c => { s with cap1 := some { c with posFrames := 0 } }
            | none => s
  if s1.single_video_mode = false then
    match s1.cap2 with
    | some c => { s1 with cap2 := some { c with posFrames := 0 } }
    | none => s1
  else s1

/-- Fuel-indexed pair of VideoCompareApp.stop_videos (which = true, src
lines 958-979) and VideoCompareApp.display_initial_frames (which = false,
src lines 806-862).  The source functions are mutually recursive: stop
re-displays the initial frames, and the width-lt-2 error branch of the
initial display calls stop again (an unbounded recursion in the source,
truncated here when the fuel runs out). -/
def stopOrDisplay : Nat → Bool → AppState → AppState
  | 0, _, s => s
  | Nat.succ f, true, s =>
    match s.cap1 with
    | none => s
    | some c1 =>
      let s1 := { s with timerActive := false, is_paused := false,
                         cap1 := some { c1 with posFrames := 0 } }
      let s2 :=
        if s1.single_video_mode = false then
          match s1.cap2 with
          | some c2 => { s1 with cap2 := some { c2 with posFrames := 0 } }
          | none => s1
        else s1
      let s3 := stopOrDisplay f false s2
      let s4 := setSlider s3 0
      { s4 with playEnabled := true, pauseEnabled := false,
                stopEnabled := false }
  | Nat.succ f, false, s =>
    match s.cap1 with
    | none => s
    | some c1 =>
      let r1 := c1.read
      let s1 := { s with cap1 := some r1.2.2 }
      if r1.1 = false then s1
      else
        match r1.2.1 with
        | none => s1
        | some frame1 =>
          if s1.single_video_mode then
            if frame1.width < 2 then
              stopOrDisplay f true (pushDialog s1 Dialog.errFrameTooNarrow)
            else
              let left : Frame :=
                { height := frame1.height, width := frame1.width / 2 }
              let right : Frame :=
                { height := frame1.height,
                  width := frame1.width - frame1.width / 2 }
              let s2 :=
                if s1.is_overlay then
                  { s1 with overlayFrames := some (left, right) }
                else
                  { s1 with label1 := some left, label2 := some right }
              resetPositions s2
          else
            match s1.cap2 with
            | none => s1
            | some c2 =>
              let r2 := c2.read
              let s2 := { s1 with cap2 := some r2.2.2 }
              if r2.1 = false then s2
              else
                match r2.2.1 with
                | none => s2
                | some frame2 =>
                  let s3 :=
                    if s2.is_overlay then
                      { s2 with overlayFrames := some (frame1, frame2) }
                    else
                      { s2 with label1 := some frame1, label2 := some frame2 }
                  resetPositions s3

/-- VideoCompareApp.stop_videos (src lines 958-979): stop the timer,
clear the pause flag, reset both positions, re-display the initial
frames, reset the seekbar, update the buttons. -/
def stop_videos (f : Nat) (s : AppState) : AppState :=
  stopOrDisplay f true s

/-- VideoCompareApp.display_initial_frames (src lines 806-862). -/
def display_initial_frames (f : Nat) (s : AppState) : AppState :=
  stopOrDisplay f false s

/-- VideoCompareApp.toggle_mode, unchecked branch (src lines 683-688):
leave overlay mode, show the side-by-side widget, refresh the display. -/
def toggle_mode_off (f : Nat) (s : AppState) : AppState :=
  display_initial_frames f
    { s with is_overlay := false, view := View.sideBySide }

/-- VideoCompareApp.toggle_mode (src lines 663-688).  In the guard branch
the call mode_toggle.setChecked(False) synchronously re-enters the handler
in its unchecked branch through the stateChanged signal, and the outer
invocation then returns. -/
def toggle_mode (f : Nat) (state : Bool) (s : AppState) : AppState :=
  let s0 := { s with modeToggleChecked := state }
  if state then
    match s0.cap1 with
    | none =>
      toggle_mode_off f
        { (pushDialog s0 Dialog.warnOverlayNeedsVideo) with
            modeToggleChecked := false }
    | some _ =>
      display_initial_frames f
        { s0 with is_overlay := true, view := View.overlay }
  else
    toggle_mode_off f s0

/-- VideoCompareApp.play_videos (src lines 908-947): guard on loaded
captures, compute the combined fps (the max of the two rates outside
single-video mode), reject a non-positive rate, then start the timer at
int(1000 / combined_fps) milliseconds. -/
def play_videos (s : AppState) : AppState :=
  match s.cap1 with
  | none => pushDialog s Dialog.warnLoadFirst
  | some _ =>
    if s.single_video_mode = false ∧ s.cap2 = none then
      pushDialog s Dialog.warnLoadSecond
    else
      let combined_fps :=
        if s.single_video_mode then s.fps1 else max s.fps1 s.fps2
      if combined_fps ≤ 0 then
        pushDialog s Dialog.errInvalidFps
      else
        { s with timer_interval := some (pyint (1000 / combined_fps)),
                 timerActive := true, is_paused := false,
                 playEnabled := false, pauseEnabled := true,
                 stopEnabled := true }

/-- VideoCompareApp.pause_videos (src lines 949-956). -/
def pause_videos (s : AppState) : AppState :=
  if s.timerActive then
    { s with timerActive := false, is_paused := true,
             playEnabled := true, pauseEnabled := false }
  else s

/-- VideoCompareApp.start_seek (src lines 1124-1129): if the timer is
active, stop it and set is_paused. -/
def start_seek (s : AppState) : AppState :=
  if s.timerActive then
    { s with timerActive := false, is_paused := true }
  else s

/-- VideoCompareApp.end_seek (src lines 1131-1139).  The hasattr guard is
always satisfied because __init__ (src line 487) sets timer_interval to
None; evaluating None > 0 then raises TypeError, modelled as the error
result. -/
def end_seek (s : AppState) : Except PyErr AppState :=
  if s.is_paused = false then
    match s.timer_interval with
    | none => Except.error PyErr.noneIntCompare
    | some ti =>
      if 0 < ti then Except.ok { s with timerActive := true }
      else Except.ok s
  else Except.ok s

/-- VideoCompareApp.update_frames (src lines 981-1066), the timer tick.
Single mode: read one frame, split it unconditionally, display, update
the seekbar with the position, stop when the position reaches the first
duration.  Dual mode: read one frame from each capture, display on dual
success, update the seekbar with the minimum of the two positions, stop
when either position reaches its own stream duration; stop as well when
either read fails.  A missing second capture in dual mode would raise
AttributeError, caught by the broad handler, which stops and reports. -/
def update_frames (f : Nat) (s : AppState) : AppState :=
  match s.cap1 with
  | none => s
  | some c1 =>
    if s.single_video_mode then
      let r1 := c1.read
      let s1 := { s with cap1 := some r1.2.2 }
      if r1.1 = false then stop_videos f s1
      else
        match r1.2.1 with
        | none => s1
        | some frame1 =>
          let left : Frame :=
            { height := frame1.height, width := frame1.width / 2 }
          let right : Frame :=
            { height := frame1.height,
              width := frame1.width - frame1.width / 2 }
          let s2 :=
            if s1.is_overlay then
              { s1 with overlayFrames := some (left, right) }
            else
              { s1 with label1 := some left, label2 := some right }
          let pos1 := r1.2.2.posMsec
          let s3 := setSlider s2 (pyint pos1)
          if s3.duration1 * 1000 ≤ pos1 then stop_videos f s3 else s3
    else
      let r1 := c1.read
      match s.cap2 with
      | none =>
        pushDialog (stop_videos f { s with cap1 := some r1.2.2 })
          Dialog.errPlaybackUnexpected
      | some c2 =>
        let r2 := c2.read
        let s1 := { s with cap1 := some r1.2.2, cap2 := some r2.2.2 }
        if r1.1 = true ∧ r2.1 = true then
          match r1.2.1, r2.2.1 with
          | some frame1, some frame2 =>
            let s2 :=
              if s1.is_overlay then
                { s1 with overlayFrames := some (frame1, frame2) }
              else
                { s1 with label1 := some frame1, label2 := some frame2 }
            let pos1 := r1.2.2.posMsec
            let pos2 := r2.2.2.posMsec
            let current_pos := min pos1 pos2
            let s3 := setSlider s2 (pyint current_pos)
            if s3.duration1 * 1000 ≤ pos1 ∨ s3.duration2 * 1000 ≤ pos2 then
              stop_videos f s3
            else s3
          | _, _ => stop_videos f s1
        else stop_videos f s1

/-- VideoCompareApp.load_videos (src lines 690-804).  The two Option Cap
arguments are the outcomes of the two file dialogs composed with the
external cv2.VideoCapture constructor: none when no path was selected,
some c for the capture object constructed from the selected path (which
need not have opened).  The previous captures are released before the
new ones are validated; an open failure reports a critical error and
aborts the rest of the load. -/
def load_videos (f : Nat) (sel1 sel2 : Option Cap) (s : AppState) : AppState :=
  match sel1 with
  | none => pushDialog s Dialog.warnFirstNotSelected
  | some c1 =>
    let s1 := match s.cap1 with
              | some old => { s with released := s.released ++ [old] }
              | none => s
    let s2 := match s1.cap2 with
              | some old => { s1 with released := s1.released ++ [old] }
              | none => s1
    let s3 := { s2 with cap1 := some c1, cap2 := sel2,
                        single_video_mode := sel2.isNone }
    if c1.isOpened = false then
      pushDialog s3 Dialog.errOpenFirst
    else if s3.single_video_mode = false ∧ sel2.map Cap.isOpened = some false then
      pushDialog s3 Dialog.errOpenSecond
    else
      let fps1 := c1.fps
      let frame_count1 := c1.frameCount
      let duration1 : ℚ := if fps1 ≠ 0 then (frame_count1 : ℚ) / fps1 else 0
      let meta2 : ℚ × Nat × ℚ :=
        if s3.single_video_mode then (fps1, frame_count1, duration1)
        else
          match sel2 with
          | some c2 =>
            (c2.fps, c2.frameCount,
              if c2.fps ≠ 0 then (c2.frameCount : ℚ) / c2.fps else 0)
          | none => (fps1, frame_count1, duration1)
      let duration := min duration1 meta2.2.2
      let s4 := { s3 with
        fps1 := fps1, frame_count1 := frame_count1, duration1 := duration1,
        fps2 := meta2.1, frame_count2 := meta2.2.1, duration2 := meta2.2.2,
        playEnabled := true, pauseEnabled := false, stopEnabled := false,
        sliderEnabled := true, modeToggleEnabled := true,
        duration := duration,
        sliderMax := pyint (duration * 1000),
        sliderValue := 0,
        cap1 := some { c1 with posFrames := 0 },
        cap2 := sel2.map (fun c2 => { c2 with posFrames := 0 }) }
      display_initial_frames f s4

/-- The state right after __init__ (src lines 479-529): no captures, the
timer idle with no interval computed yet, all flags cleared, the
side-by-side page showing, the slider at Qt defaults. -/
def initState : AppState :=
  { cap1 := none, cap2 := none, timerActive := false, timer_interval := none,
    is_paused := false, is_overlay := false, single_video_mode := false,
    fps1 := 0, fps2 := 0, frame_count1 := 0, frame_count2 := 0,
    duration1 := 0, duration2 := 0, duration := 0,
    sliderMax := 99, sliderValue := 0, sliderEnabled := false,
    modeToggleChecked := false, modeToggleEnabled := false,
    playEnabled := false, pauseEnabled := false, stopEnabled := false,
    view := View.sideBySide, overlayFrames := none,
    label1 := none, label2 := none, dialogs := [], released := [] }

/-- An opened capture for a 10 second, 30 fps dual-mode stream, currently
five frames in. -/
def capA : Cap :=
  { isOpened := true, fps := 30, frameCount := 300, frameWidth := 640,
    frameHeight := 360, posFrames := 5 }

/-- An opened capture for an 8 second, 30 fps stream, five frames in. -/
def capB : Cap :=
  { isOpened := true, fps := 30, frameCount := 240, frameWidth := 640,
    frameHeight := 360, posFrames := 5 }

/-- A dual-stream session in the Playing state: both captures open, the
timer running at the interval computed by the last play action. -/
def playingState : AppState :=
  { initState with
      cap1 := some capA, cap2 := some capB,
      fps1 := 30, fps2 := 30, frame_count1 := 300, frame_count2 := 240,
      duration1 := 10, duration2 := 8, duration := 8, sliderMax := 8000,
      sliderEnabled := true, modeToggleEnabled := true,
      timerActive := true, timer_interval := some 33, is_paused := false,
      playEnabled := false, pauseEnabled := true, stopEnabled := true }

/-- Any lemma about states with no capture loaded: both branches of the
stop/display pair return the state unchanged when cap1 is absent. -/
theorem stopOrDisplay_cap1_none (f : Nat) (w : Bool) (t : AppState)
    (h : t.cap1 = none) : stopOrDisplay f w t = t := by
  cases f with
  | zero => rfl
  | succ f => cases w <;> simp [stopOrDisplay, h]

/-- Claim C1 (code bug): in a session where playback is running, pressing
the seek indicator (start_seek) and then releasing it (end_seek) leaves
the scheduler stopped instead of resuming it: start_seek sets is_paused,
and end_seek only restarts the timer when is_paused is false, so the
session does not return to Playing. -/
theorem end_seek_does_not_resume_playing :
    playingState.timerActive = true ∧
    end_seek (start_seek playingState) = Except.ok (start_seek playingState) ∧
    (start_seek playingState).timerActive = false ∧
    (start_seek playingState).is_paused = true := by
  exact ⟨rfl, rfl, rfl, rfl⟩

/-- A freshly loaded single-video session on which play was never pressed:
timer_interval still holds its initial None. -/
def freshLoadedState : AppState :=
  { initState with
      cap1 := some { isOpened := true, fps := 30, frameCount := 300,
                     frameWidth := 640, frameHeight := 360, posFrames := 0 },
      cap2 := none, single_video_mode := true,
      fps1 := 30, fps2 := 30, frame_count1 := 300, frame_count2 := 300,
      duration1 := 10, duration2 := 10, duration := 10, sliderMax := 10000,
      sliderEnabled := true, modeToggleEnabled := true, playEnabled := true }

/-- Claim C10 (code bug): with timer_interval still at its initial None
and is_paused false, releasing the seek indicator evaluates None > 0 and
raises TypeError out of the handler; end_seek is not a safe no-op there. -/
theorem end_seek_type_error_on_fresh_session :
    freshLoadedState.timer_interval = none ∧
    freshLoadedState.is_paused = false ∧
    end_seek freshLoadedState = Except.error PyErr.noneIntCompare := by
  exact ⟨rfl, rfl, rfl⟩

/-- Claim C8: requesting a switch to Overlay mode with no stream loaded
shows a warning, reverts the toggle, and leaves the view at SideBySide;
the handler is a total function of the state (no exception path). -/
theorem toggle_mode_guard_no_video (f : Nat) (s : AppState)
    (h : s.cap1 = none) :
    (toggle_mode f true s).is_overlay = false ∧
    (toggle_mode f true s).view = View.sideBySide ∧
    (toggle_mode f true s).modeToggleChecked = false ∧
    Dialog.warnOverlayNeedsVideo ∈ (toggle_mode f true s).dialogs := by
  refine ⟨?_, ?_, ?_, ?_⟩ <;>
    simp [toggle_mode, toggle_mode_off, display_initial_frames, pushDialog, h,
          stopOrDisplay_cap1_none]

/-- Claim C8 witness: the guard instantiated at the initial state. -/
theorem toggle_mode_guard_no_video_witness :
    (toggle_mode 1 true initState).is_overlay = false ∧
    (toggle_mode 1 true initState).view = View.sideBySide ∧
    (toggle_mode 1 true initState).modeToggleChecked = false ∧
    Dialog.warnOverlayNeedsVideo ∈ (toggle_mode 1 true initState).dialogs :=
  toggle_mode_guard_no_video 1 initState rfl

/-- Claim C5 (counterexample): with scaled image widths 50 and 60 inside a
400 pixel widget (image area width 50), dragging the pointer to x = 0
stores the ratio 0, strictly below the claimed lower clamp 0.01. -/
theorem mouseMoveEvent_ratio_below_lower_bound_cex :
    (0 : Nat) < min 50 60 ∧
    mouseMoveEvent 400 50 60 0 = 0 ∧
    mouseMoveEvent 400 50 60 0 < 1 / 100 := by
  refine ⟨by decide, ?_, ?_⟩ <;> norm_num [mouseMoveEvent, pyint, Int.fdiv]

/-- Claim C5 (amended): for every pointer x-position and every positive
image area width w = min of the scaled widths, the stored ratio lies in
the band from ⌊0.01*w⌋/w up to ⌊0.99*w⌋/w, hence within [0, 0.99]; the
lower clamp ⌊0.01*w⌋/w is below 0.01 whenever w is not a multiple of 100
and equals 0 for w below 100. -/
theorem mouseMoveEvent_ratio_bounds (ww i1 i2 : Nat) (px : ℚ)
    (hw : 0 < min i1 i2) :
    0 ≤ mouseMoveEvent ww i1 i2 px ∧
    mouseMoveEvent ww i1 i2 px ≤ 99 / 100 ∧
    ((⌊((min i1 i2 : Nat) : ℚ) / 100⌋ : ℚ) / ((min i1 i2 : Nat) : ℚ))
      ≤ mouseMoveEvent ww i1 i2 px ∧
    mouseMoveEvent ww i1 i2 px
      ≤ ((⌊99 * ((min i1 i2 : Nat) : ℚ) / 100⌋ : ℚ) /
          ((min i1 i2 : Nat) : ℚ)) := by
  have hwQ : (0 : ℚ) < ((min i1 i2 : Nat) : ℚ) := by exact_mod_cast hw
  set wQ : ℚ := ((min i1 i2 : Nat) : ℚ) with hwq
  set x0 : ℤ := Int.fdiv ((ww : ℤ) - ((min i1 i2 : Nat) : ℤ)) 2 with hx0
  have hpa : pyint ((1 / 100 : ℚ) * wQ) = ⌊wQ / 100⌋ := by
    rw [pyint, if_pos (by positivity)]
    congr 1
    ring
  have hpb : pyint ((99 / 100 : ℚ) * wQ) = ⌊99 * wQ / 100⌋ := by
    rw [pyint, if_pos (by positivity)]
    congr 1
    ring
  have hcast : ((((min i1 i2 : Nat) : ℤ)) : ℚ) = wQ := by
    push_cast [hwq]
    rfl
  have hunf : mouseMoveEvent ww i1 i2 px =
      (((max (⌊wQ / 100⌋ + x0) (min (pyint px) (⌊99 * wQ / 100⌋ + x0))
          - x0 : ℤ)) : ℚ) / wQ := by
    simp only [mouseMoveEvent, hcast, hpa, hpb, hx0]
  have hab : ⌊wQ / 100⌋ ≤ ⌊99 * wQ / 100⌋ := by
    apply Int.floor_le_floor
    have : (0 : ℚ) ≤ wQ := le_of_lt hwQ
    linarith
  have ha0 : (0 : ℤ) ≤ ⌊wQ / 100⌋ := by
    apply Int.floor_nonneg.mpr
    positivity
  set c : ℤ := max (⌊wQ / 100⌋ + x0) (min (pyint px) (⌊99 * wQ / 100⌋ + x0))
    with hc
  have hclb : ⌊wQ / 100⌋ + x0 ≤ c := le_max_left _ _
  have hcub : c ≤ ⌊99 * wQ / 100⌋ + x0 := by
    apply max_le
    · linarith
    · exact le_trans (min_le_right _ _) (le_refl _)
  have hlbQ : ((⌊wQ / 100⌋ : ℤ) : ℚ) ≤ ((c - x0 : ℤ) : ℚ) := by
    exact_mod_cast (by linarith : ⌊wQ / 100⌋ ≤ c - x0)
  have hubQ : ((c - x0 : ℤ) : ℚ) ≤ ((⌊99 * wQ / 100⌋ : ℤ) : ℚ) := by
    exact_mod_cast (by linarith : c - x0 ≤ ⌊99 * wQ / 100⌋)
  have h0Q : (0 : ℚ) ≤ ((c - x0 : ℤ) : ℚ) := by
    exact_mod_cast (by linarith : (0 : ℤ) ≤ c - x0)
  have hfloorle : ((⌊99 * wQ / 100⌋ : ℤ) : ℚ) ≤ 99 * wQ / 100 :=
    Int.floor_le _
  rw [hunf]
  refine ⟨div_nonneg h0Q (le_of_lt hwQ), ?_, ?_, ?_⟩
  · calc ((c - x0 : ℤ) : ℚ) / wQ
        ≤ (99 * wQ / 100) / wQ := by
          apply div_le_div_of_nonneg_right ?_ hwQ.le
          exact le_trans hubQ hfloorle
      _ = 99 / 100 := by
          field_simp
          ring
  · exact div_le_div_of_nonneg_right hlbQ hwQ.le
  · exact div_le_div_of_nonneg_right hubQ hwQ.le

/-- Claim C5 amended witness: widget width 400, both scaled widths 200,
pointer at x = 0; the clamped ratio is 1/100 and satisfies the bounds. -/
theorem mouseMoveEvent_ratio_bounds_witness :
    (0 : Nat) < min 200 200 ∧
    (0 ≤ mouseMoveEvent 400 200 200 0 ∧
     mouseMoveEvent 400 200 200 0 ≤ 99 / 100 ∧
     ((⌊((min 200 200 : Nat) : ℚ) / 100⌋ : ℚ) / ((min 200 200 : Nat) : ℚ))
       ≤ mouseMoveEvent 400 200 200 0 ∧
     mouseMoveEvent 400 200 200 0
       ≤ ((⌊99 * ((min 200 200 : Nat) : ℚ) / 100⌋ : ℚ) /
           ((min 200 200 : Nat) : ℚ))) :=
  ⟨by decide, mouseMoveEvent_ratio_bounds 400 200 200 0 (by decide)⟩

/-- An opened capture reporting 60 fps. -/
def capC : Cap :=
  { isOpened := true, fps := 60, frameCount := 600, frameWidth := 640,
    frameHeight := 360, posFrames := 0 }

/-- A loaded dual session whose streams both report 60 fps, before play. -/
def fps60State : AppState :=
  { initState with
      cap1 := some capC, cap2 := some capC,
      fps1 := 60, fps2 := 60, frame_count1 := 600, frame_count2 := 600,
      duration1 := 10, duration2 := 10, duration := 10, sliderMax := 10000,
      sliderEnabled := true, modeToggleEnabled := true, playEnabled := true }

/-- Claim C6 (counterexample): at effective fps 60 the play action
computes int(1000/60) = 16 ms, while round(1000/60) = 17: the tick
interval is truncated, not rounded to the nearest millisecond. -/
theorem play_videos_truncates_not_rounds_cex :
    (play_videos fps60State).timer_interval = some 16 ∧
    round ((1000 : ℚ) / max fps60State.fps1 fps60State.fps2) = 17 ∧
    (play_videos fps60State).timerActive = true := by
  have h16 : pyint ((1000 : ℚ) / 60) = 16 := by norm_num [pyint]
  have h17 : round ((1000 : ℚ) / 60) = 17 := by norm_num [round_eq]
  refine ⟨?_, ?_, ?_⟩ <;>
    simp [play_videos, fps60State, initState, capC, pushDialog, h16, h17] <;>
    norm_num

/-- Claim C6 (amended): for every dual-mode play action with positive
effective fps = max(fps1, fps2), the tick interval is the truncated
int(1000 / effective_fps) milliseconds, the scheduler is started at it,
and the pause flag is cleared. -/
theorem play_videos_interval_truncated (s : AppState) (c1 c2 : Cap)
    (h1 : s.cap1 = some c1) (h2 : s.cap2 = some c2)
    (hm : s.single_video_mode = false)
    (hfps : 0 < max s.fps1 s.fps2) :
    (play_videos s).timer_interval = some (pyint (1000 / max s.fps1 s.fps2)) ∧
    (play_videos s).timerActive = true ∧
    (play_videos s).is_paused = false := by
  simp [play_videos, h1, h2, hm, not_le.mpr hfps]

/-- Claim C6 amended witness: the 60 fps dual session. -/
theorem play_videos_interval_truncated_witness :
    (0 : ℚ) < max fps60State.fps1 fps60State.fps2 ∧
    ((play_videos fps60State).timer_interval =
        some (pyint (1000 / max fps60State.fps1 fps60State.fps2)) ∧
     (play_videos fps60State).timerActive = true ∧
     (play_videos fps60State).is_paused = false) :=
  ⟨by norm_num [fps60State, initState],
   play_videos_interval_truncated fps60State capC capC rfl rfl rfl
     (by norm_num [fps60State, initState])⟩

/-- An opened capture standing for a working loaded session's stream. -/
def workingCap : Cap :=
  { isOpened := true, fps := 30, frameCount := 300, frameWidth := 640,
    frameHeight := 360, posFrames := 0 }

/-- The capture object cv2.VideoCapture returns for an unreadable file:
constructed, but not opened. -/
def failedCap : Cap :=
  { isOpened := false, fps := 0, frameCount := 0, frameWidth := 0,
    frameHeight := 0, posFrames := 0 }

/-- A working single-video session prior to a new load attempt. -/
def workingSession : AppState :=
  { initState with
      cap1 := some workingCap, cap2 := none, single_video_mode := true,
      fps1 := 30, fps2 := 30, frame_count1 := 300, frame_count2 := 300,
      duration1 := 10, duration2 := 10, duration := 10, sliderMax := 10000,
      sliderEnabled := true, modeToggleEnabled := true, playEnabled := true }

/-- Claim C2 (counterexample): when a new load attempt fails to open its
first video, the previously working session is NOT left intact: its
capture has already been released and the capture field now holds the
unopened capture of the failed attempt, so the prior session is no
longer usable. -/
theorem load_videos_open_failure_replaces_prior_session :
    workingSession.cap1 = some workingCap ∧
    failedCap.isOpened = false ∧
    (load_videos 2 (some failedCap) none workingSession).cap1
      = some failedCap ∧
    workingCap ∈ (load_videos 2 (some failedCap) none workingSession).released ∧
    Dialog.errOpenFirst
      ∈ (load_videos 2 (some failedCap) none workingSession).dialogs := by
  refine ⟨rfl, rfl, ?_, ?_, ?_⟩ <;>
    simp [load_videos, workingSession, initState, workingCap, failedCap,
          pushDialog]

/-- Claim C2 (amended): failure to open the first required capture
reports a critical error dialog and aborts the rest of the load (no
metadata, seek range, slider or scheduler changes), but the load is not
transactional: the previous session's captures are released and the
capture fields overwritten before validation, so the previously working
session does not remain usable and the failed attempt's unopened capture
stays assigned. -/
theorem load_videos_open_failure_aborts_nontransactional
    (f : Nat) (s : AppState) (old c : Cap) (sel2 : Option Cap)
    (hold : s.cap1 = some old) (hc : c.isOpened = false) :
    (load_videos f (some c) sel2 s).cap1 = some c ∧
    (load_videos f (some c) sel2 s).cap2 = sel2 ∧
    old ∈ (load_videos f (some c) sel2 s).released ∧
    Dialog.errOpenFirst ∈ (load_videos f (some c) sel2 s).dialogs ∧
    (load_videos f (some c) sel2 s).fps1 = s.fps1 ∧
    (load_videos f (some c) sel2 s).duration = s.duration ∧
    (load_videos f (some c) sel2 s).sliderMax = s.sliderMax ∧
    (load_videos f (some c) sel2 s).sliderValue = s.sliderValue ∧
    (load_videos f (some c) sel2 s).timerActive = s.timerActive := by
  cases hc2 : s.cap2 <;>
    simp [load_videos, hold, hc2, hc, pushDialog]

/-- Claim C2 amended witness: the failed load over the working session. -/
theorem load_videos_open_failure_aborts_nontransactional_witness :
    workingSession.cap1 = some workingCap ∧ failedCap.isOpened = false ∧
    ((load_videos 2 (some failedCap) none workingSession).cap1
        = some failedCap ∧
     (load_videos 2 (some failedCap) none workingSession).cap2 = none ∧
     workingCap
       ∈ (load_videos 2 (some failedCap) none workingSession).released ∧
     Dialog.errOpenFirst
       ∈ (load_videos 2 (some failedCap) none workingSession).dialogs ∧
     (load_videos 2 (some failedCap) none workingSession).fps1
       = workingSession.fps1 ∧
     (load_videos 2 (some failedCap) none workingSession).duration
       = workingSession.duration ∧
     (load_videos 2 (some failedCap) none workingSession).sliderMax
       = workingSession.sliderMax ∧
     (load_videos 2 (some failedCap) none workingSession).sliderValue
       = workingSession.sliderValue ∧
     (load_videos 2 (some failedCap) none workingSession).timerActive
       = workingSession.timerActive) :=
  ⟨rfl, rfl,
   load_videos_open_failure_aborts_nontransactional 2 workingSession
     workingCap failedCap none rfl rfl⟩

/-- The dual session of playingState, paused by the user with both
streams standing at frame 5. -/
def midState : AppState :=
  { playingState with timerActive := false, is_paused := true }

/-- Claim C3 (counterexample): toggling Overlay in a dual session whose
streams stand at frame 5 leaves both at frame 0 afterwards: the playback
positions of the two stream handles are not preserved by the mode
switch. -/
theorem toggle_mode_overlay_resets_positions_cex :
    midState.cap1.map Cap.posFrames = some 5 ∧
    midState.cap2.map Cap.posFrames = some 5 ∧
    (toggle_mode 1 true midState).cap1.map Cap.posFrames = some 0 ∧
    (toggle_mode 1 true midState).cap2.map Cap.posFrames = some 0 := by
  refine ⟨rfl, rfl, ?_, ?_⟩ <;>
    simp [toggle_mode, toggle_mode_off, display_initial_frames, stopOrDisplay,
          resetPositions, Cap.read, midState, playingState, initState,
          capA, capB, pushDialog, setSlider]

/-- Claim C3 (amended): in a dual session with readable streams,
switching the view to Overlay re-renders the frame pair read at the
current positions into the Compositor, and then resets both stream
positions to frame index 0; the positions before the switch are
preserved only when they were already 0. -/
theorem toggle_mode_overlay_rerenders_and_resets (f : Nat) (s : AppState)
    (c1 c2 : Cap)
    (h1 : s.cap1 = some c1) (ho1 : c1.isOpened = true)
    (hn1 : c1.posFrames < c1.frameCount)
    (h2 : s.cap2 = some c2) (ho2 : c2.isOpened = true)
    (hn2 : c2.posFrames < c2.frameCount)
    (hm : s.single_video_mode = false) :
    (toggle_mode (f + 1) true s).is_overlay = true ∧
    (toggle_mode (f + 1) true s).view = View.overlay ∧
    (toggle_mode (f + 1) true s).overlayFrames =
      some ({ height := c1.frameHeight, width := c1.frameWidth },
            { height := c2.frameHeight, width := c2.frameWidth }) ∧
    (toggle_mode (f + 1) true s).cap1.map Cap.posFrames = some 0 ∧
    (toggle_mode (f + 1) true s).cap2.map Cap.posFrames = some 0 := by
  simp [toggle_mode, display_initial_frames, stopOrDisplay, Cap.read,
        resetPositions, h1, h2, hm, ho1, hn1, ho2, hn2]

/-- Claim C3 amended witness: the paused dual session at frame 5. -/
theorem toggle_mode_overlay_rerenders_and_resets_witness :
    midState.cap1 = some capA ∧ capA.posFrames < capA.frameCount ∧
    ((toggle_mode (0 + 1) true midState).is_overlay = true ∧
     (toggle_mode (0 + 1) true midState).view = View.overlay ∧
     (toggle_mode (0 + 1) true midState).overlayFrames =
       some ({ height := capA.frameHeight, width := capA.frameWidth },
             { height := capB.frameHeight, width := capB.frameWidth }) ∧
     (toggle_mode (0 + 1) true midState).cap1.map Cap.posFrames = some 0 ∧
     (toggle_mode (0 + 1) true midState).cap2.map Cap.posFrames = some 0) :=
  ⟨rfl, by decide,
   toggle_mode_overlay_rerenders_and_resets 0 midState capA capB rfl rfl
     (by decide) rfl rfl (by decide) rfl⟩

/-- resetPositions only touches the capture positions. -/
theorem resetPositions_timerActive (s : AppState) :
    (resetPositions s).timerActive = s.timerActive := by
  rw [resetPositions]
  rcases h1 : s.cap1 with _ | c1 <;> simp only [h1] <;> split <;>
    (try split) <;> rfl

/-- The stop/display pair never switches the timer on: a state with the
scheduler idle keeps it idle through stop_videos and
display_initial_frames at every fuel. -/
theorem stopOrDisplay_timer_off (f : Nat) : ∀ (w : Bool) (t : AppState),
    t.timerActive = false → (stopOrDisplay f w t).timerActive = false := by
  induction f with
  | zero =>
    intro w t h
    simpa [stopOrDisplay] using h
  | succ f ih =>
    intro w t h
    cases w <;> simp only [stopOrDisplay] <;>
      (repeat' split) <;>
      simp_all [resetPositions_timerActive, setSlider, pushDialog]

/-- stop_videos with a loaded first capture and positive fuel leaves the
scheduler idle. -/
theorem stop_videos_timer_off (f : Nat) (t : AppState)
    (h : t.cap1.isSome = true) :
    (stop_videos (f + 1) t).timerActive = false := by
  rcases ht : t.cap1 with _ | c
  · rw [ht] at h
    cases h
  · rw [stop_videos, stopOrDisplay]
    simp only [ht, setSlider]
    apply stopOrDisplay_timer_off
    split
    · split <;> rfl
    · rfl

/-- Claim C9: from a loaded dual-stream session in the Stopped state
(both positions at 0, scheduler idle, seek indicator at 0, streams
readable), invoking stop again leaves those observables unchanged: stop
is idempotent from Stopped. -/
theorem stop_videos_idempotent_from_stopped (f : Nat) (s : AppState)
    (c1 c2 : Cap)
    (h1 : s.cap1 = some c1) (ho1 : c1.isOpened = true)
    (hf1 : 0 < c1.frameCount) (hp1 : c1.posFrames = 0)
    (h2 : s.cap2 = some c2) (ho2 : c2.isOpened = true)
    (hf2 : 0 < c2.frameCount) (hp2 : c2.posFrames = 0)
    (hm : s.single_video_mode = false)
    (ht : s.timerActive = false) (hv : s.sliderValue = 0) :
    (stop_videos f s).cap1.map Cap.posFrames = some 0 ∧
    (stop_videos f s).cap2.map Cap.posFrames = some 0 ∧
    (stop_videos f s).timerActive = false ∧
    (stop_videos f s).sliderValue = 0 := by
  cases f with
  | zero =>
    simp [stop_videos, stopOrDisplay, h1, h2, hp1, hp2, ht, hv]
  | succ f =>
    cases f with
    | zero =>
      refine ⟨?_, ?_, ?_, ?_⟩ <;>
        simp [stop_videos, stopOrDisplay, h1, h2, hm, setSlider]
    | succ g =>
      cases hov : s.is_overlay <;>
        refine ⟨?_, ?_, ?_, ?_⟩ <;>
        simp [stop_videos, stopOrDisplay, h1, h2, hm, ho1, ho2, hf1, hf2,
              hov, Cap.read, resetPositions, setSlider]

/-- A loaded dual session resting in the Stopped state. -/
def stoppedState : AppState :=
  { playingState with
      timerActive := false, playEnabled := true, pauseEnabled := false,
      stopEnabled := false,
      cap1 := some { capA with posFrames := 0 },
      cap2 := some { capB with posFrames := 0 } }

/-- Claim C9 witness: the stopped dual session. -/
theorem stop_videos_idempotent_from_stopped_witness :
    stoppedState.timerActive = false ∧ stoppedState.sliderValue = 0 ∧
    ((stop_videos 2 stoppedState).cap1.map Cap.posFrames = some 0 ∧
     (stop_videos 2 stoppedState).cap2.map Cap.posFrames = some 0 ∧
     (stop_videos 2 stoppedState).timerActive = false ∧
     (stop_videos 2 stoppedState).sliderValue = 0) :=
  ⟨rfl, rfl,
   stop_videos_idempotent_from_stopped 2 stoppedState
     { capA with posFrames := 0 } { capB with posFrames := 0 }
     rfl rfl (by decide) rfl rfl rfl (by decide) rfl rfl rfl rfl⟩

/-- A 30 fps, 300 frame (10 s) stream, 119 frames in. -/
def capT1 : Cap :=
  { isOpened := true, fps := 30, frameCount := 300, frameWidth := 640,
    frameHeight := 360, posFrames := 119 }

/-- A 24 fps, 120 frame (5 s) stream, 119 frames in. -/
def capT2 : Cap :=
  { isOpened := true, fps := 24, frameCount := 120, frameWidth := 640,
    frameHeight := 360, posFrames := 119 }

/-- A playing dual session after 119 ticks of the 30/24 fps pair:
the next tick reads frame 120 of each stream. -/
def tickState : AppState :=
  { initState with
      cap1 := some capT1, cap2 := some capT2,
      fps1 := 30, fps2 := 24, frame_count1 := 300, frame_count2 := 120,
      duration1 := 10, duration2 := 5, duration := 5, sliderMax := 5000,
      sliderEnabled := true, modeToggleEnabled := true,
      timerActive := true, timer_interval := some 33,
      playEnabled := false, pauseEnabled := true, stopEnabled := true }

/-- Claim C4 (counterexample): a dual tick with both reads succeeding on
which the code transitions to Stopped (the 24 fps stream reaches its own
5 s duration) although current_pos = min(pos_a, pos_b) = 4000 ms is still
strictly below primary_duration_ms = min durations * 1000 = 5000 ms: the
stop decision is per-stream, not the claimed min-based comparison. -/
theorem update_frames_stops_before_min_duration_cex :
    tickState.timerActive = true ∧
    (capT1.read).1 = true ∧ (capT2.read).1 = true ∧
    tickState.duration = min tickState.duration1 tickState.duration2 ∧
    min (capT1.read).2.2.posMsec (capT2.read).2.2.posMsec
      < tickState.duration * 1000 ∧
    (update_frames 2 tickState).timerActive = false := by
  refine ⟨rfl, by decide, by decide, by norm_num [tickState, initState],
          ?_, ?_⟩
  · norm_num [Cap.read, Cap.posMsec, capT1, capT2, tickState, initState]
  · norm_num [update_frames, stop_videos, stopOrDisplay, tickState,
              initState, capT1, capT2, Cap.read, Cap.posMsec,
              resetPositions, setSlider, pyint, pushDialog]

/-- Claim C4 (amended): on every dual tick with both reads succeeding,
the controller writes the range-clamped int(min(pos_a, pos_b)) to the
seek indicator and transitions to Stopped exactly when
pos_a ≥ duration_a_ms or pos_b ≥ duration_b_ms: each stream is compared
against its own duration, not against primary_duration = min of the two
durations. -/
theorem update_frames_dual_tick_characterization (f : Nat) (s : AppState)
    (c1 c2 : Cap)
    (h1 : s.cap1 = some c1) (ho1 : c1.isOpened = true)
    (hn1 : c1.posFrames < c1.frameCount)
    (h2 : s.cap2 = some c2) (ho2 : c2.isOpened = true)
    (hn2 : c2.posFrames < c2.frameCount)
    (hm : s.single_video_mode = false)
    (ht : s.timerActive = true) :
    ((s.duration1 * 1000 ≤ (c1.read).2.2.posMsec ∨
      s.duration2 * 1000 ≤ (c2.read).2.2.posMsec) →
        (update_frames (f + 1) s).timerActive = false) ∧
    (¬ (s.duration1 * 1000 ≤ (c1.read).2.2.posMsec ∨
        s.duration2 * 1000 ≤ (c2.read).2.2.posMsec) →
        (update_frames (f + 1) s).timerActive = true ∧
        (update_frames (f + 1) s).sliderValue =
          max 0 (min (pyint (min (c1.read).2.2.posMsec
                                 (c2.read).2.2.posMsec))
                     s.sliderMax)) := by
  have hr1 : c1.read =
      (true, some { height := c1.frameHeight, width := c1.frameWidth },
        { c1 with posFrames := c1.posFrames + 1 }) := by
    rw [Cap.read, if_pos ⟨ho1, hn1⟩]
  have hr2 : c2.read =
      (true, some { height := c2.frameHeight, width := c2.frameWidth },
        { c2 with posFrames := c2.posFrames + 1 }) := by
    rw [Cap.read, if_pos ⟨ho2, hn2⟩]
  rw [hr1, hr2]
  constructor
  · intro hcond
    cases hov : s.is_overlay <;>
      · simp only [update_frames, h1, h2, hm, hr1, hr2, hov,
                   Bool.false_eq_true, if_false, Bool.true_eq_false]
        simp [setSlider]
        split
        · exact stop_videos_timer_off f _ (by simp [setSlider])
        · next hfalse => exact absurd hcond (by simpa [setSlider] using hfalse)
  · intro hcond
    cases hov : s.is_overlay <;>
      · simp only [update_frames, h1, h2, hm, hr1, hr2, hov,
                   Bool.false_eq_true, if_false, Bool.true_eq_false]
        simp [setSlider]
        split
        · next htrue => exact absurd (by simpa [setSlider] using htrue) hcond
        · simp [setSlider, ht]

/-- Claim C4 amended witness: the 30/24 fps session at tick 120. -/
theorem update_frames_dual_tick_characterization_witness :
    tickState.cap1 = some capT1 ∧ tickState.timerActive = true ∧
    (((tickState.duration1 * 1000 ≤ (capT1.read).2.2.posMsec ∨
       tickState.duration2 * 1000 ≤ (capT2.read).2.2.posMsec) →
        (update_frames (1 + 1) tickState).timerActive = false) ∧
     (¬ (tickState.duration1 * 1000 ≤ (capT1.read).2.2.posMsec ∨
         tickState.duration2 * 1000 ≤ (capT2.read).2.2.posMsec) →
        (update_frames (1 + 1) tickState).timerActive = true ∧
        (update_frames (1 + 1) tickState).sliderValue =
          max 0 (min (pyint (min (capT1.read).2.2.posMsec
                                 (capT2.read).2.2.posMsec))
                     tickState.sliderMax))) :=
  ⟨rfl, rfl,
   update_frames_dual_tick_characterization 1 tickState capT1 capT2
     rfl rfl (by decide) rfl rfl (by decide) rfl rfl⟩

/-- A single-video capture whose frames are 1 pixel wide. -/
def narrowCap : Cap :=
  { isOpened := true, fps := 30, frameCount := 100, frameWidth := 1,
    frameHeight := 10, posFrames := 0 }

/-- A playing SingleSplit session over the 1 pixel wide stream, shown in
overlay view. -/
def narrowTickState : AppState :=
  { initState with
      cap1 := some narrowCap, cap2 := none, single_video_mode := true,
      is_overlay := true, view := View.overlay,
      fps1 := 30, fps2 := 30, frame_count1 := 100, frame_count2 := 100,
      duration1 := 10 / 3, duration2 := 10 / 3, duration := 10 / 3,
      sliderMax := 3333, sliderEnabled := true, modeToggleEnabled := true,
      timerActive := true, timer_interval := some 33,
      playEnabled := false, pauseEnabled := true, stopEnabled := true }

/-- Claim C7 (counterexample): during a playback tick in SingleSplit
overlay view, a decoded frame of width 1 (below 2) is split
unconditionally: no error dialog is shown and the session keeps playing,
contradicting the claim that any frame of width below 2 triggers a hard
error dialog and a forced stop. -/
theorem update_frames_narrow_frame_no_error_cex :
    narrowCap.frameWidth < 2 ∧
    narrowTickState.dialogs = [] ∧
    (update_frames 2 narrowTickState).dialogs = [] ∧
    (update_frames 2 narrowTickState).timerActive = true ∧
    (update_frames 2 narrowTickState).overlayFrames =
      some ({ height := 10, width := 0 }, { height := 10, width := 1 }) := by
  refine ⟨by decide, rfl, ?_, ?_, ?_⟩ <;>
    norm_num [update_frames, narrowTickState, initState, narrowCap,
              Cap.read, Cap.posMsec, setSlider, pyint, stop_videos,
              stopOrDisplay, pushDialog]

/-- Claim C7 (amended): in SingleSplit mode every decoded frame of width
w is bisected vertically into halves of widths w / 2 and w - w / 2
(640 into 320 and 320) serving as the two logical frames — on every
playback tick the split is unconditional — while the width-below-2 hard
error dialog with forced stop exists only in the initial-frame display
path: a tick splits a narrow frame without the check, and in overlay view
produces neither dialog nor stop. -/
theorem singlesplit_bisection_and_initial_width_guard :
    (∀ (f : Nat) (s : AppState) (c : Cap),
      s.cap1 = some c → c.isOpened = true → c.posFrames < c.frameCount →
      s.single_video_mode = true → s.is_overlay = true →
      ¬ (s.duration1 * 1000 ≤ (c.read).2.2.posMsec) →
      (update_frames (f + 1) s).overlayFrames =
        some ({ height := c.frameHeight, width := c.frameWidth / 2 },
              { height := c.frameHeight,
                width := c.frameWidth - c.frameWidth / 2 })) ∧
    (∀ (s : AppState) (c : Cap),
      s.cap1 = some c → c.isOpened = true → c.posFrames < c.frameCount →
      s.single_video_mode = true → c.frameWidth < 2 →
      Dialog.errFrameTooNarrow ∈ (display_initial_frames 2 s).dialogs ∧
      (display_initial_frames 2 s).timerActive = false ∧
      (display_initial_frames 2 s).sliderValue = 0) := by
  constructor
  · intro f s c h1 ho hn hm hov hnostop
    have hr : c.read =
        (true, some { height := c.frameHeight, width := c.frameWidth },
          { c with posFrames := c.posFrames + 1 }) := by
      rw [Cap.read, if_pos ⟨ho, hn⟩]
    rw [hr] at hnostop
    simp only [update_frames, h1, hm, hr, hov]
    simp [setSlider]
    split
    · next htrue => exact absurd (by simpa [setSlider] using htrue) hnostop
    · simp
  · intro s c h1 ho hn hm hw
    have hr : c.read =
        (true, some { height := c.frameHeight, width := c.frameWidth },
          { c with posFrames := c.posFrames + 1 }) := by
      rw [Cap.read, if_pos ⟨ho, hn⟩]
    refine ⟨?_, ?_, ?_⟩ <;>
      simp [display_initial_frames, stopOrDisplay, h1, hm, hr, hw,
            pushDialog, setSlider, resetPositions]

/-- The opened 640-wide capture of the bisection example. -/
def capS : Cap :=
  { isOpened := true, fps := 30, frameCount := 300, frameWidth := 640,
    frameHeight := 360, posFrames := 0 }

/-- A playing SingleSplit session over the 640-wide stream, overlay view. -/
def splitState : AppState :=
  { initState with
      cap1 := some capS, cap2 := none, single_video_mode := true,
      is_overlay := true, view := View.overlay, fps1 := 30, fps2 := 30,
      frame_count1 := 300, frame_count2 := 300,
      duration1 := 10, duration2 := 10, duration := 10, sliderMax := 10000,
      sliderEnabled := true, modeToggleEnabled := true,
      timerActive := true, timer_interval := some 33,
      playEnabled := false, pauseEnabled := true, stopEnabled := true }

/-- Claim C7 amended witness: a 640-wide frame splits into 320 and 320 on
a tick, and the width guard fires in the initial display of the 1-wide
stream. -/
theorem singlesplit_bisection_and_initial_width_guard_witness :
    capS.frameWidth / 2 = 320 ∧ capS.frameWidth - capS.frameWidth / 2 = 320 ∧
    ((update_frames (0 + 1) splitState).overlayFrames =
      some ({ height := capS.frameHeight, width := capS.frameWidth / 2 },
            { height := capS.frameHeight,
              width := capS.frameWidth - capS.frameWidth / 2 })) ∧
    (Dialog.errFrameTooNarrow
       ∈ (display_initial_frames 2 narrowTickState).dialogs ∧
     (display_initial_frames 2 narrowTickState).timerActive = false ∧
     (display_initial_frames 2 narrowTickState).sliderValue = 0) :=
  ⟨by decide, by decide,
   singlesplit_bisection_and_initial_width_guard.1 0 splitState capS rfl rfl
     (by decide) rfl rfl
     (by norm_num [Cap.read, Cap.posMsec, capS, splitState, initState]),
   singlesplit_bisection_and_initial_width_guard.2 narrowTickState narrowCap
     rfl rfl (by decide) rfl (by decide)⟩

end VideoCompare
